import Mathlib

/-!
Verification of the pronunciation-evaluation pipeline of the Shadowing
repository (a Chinese-pronunciation practice web app).

The development shallowly embeds the pipeline's pure logic:
* `src/utils/azureSpeechUtils.ts` — the browser-recognition fallback scorers,
  the assessment-data construction of `evaluatePronunciationWithAzure`
  (including its inner `calculatePauseCount`), the result normalizer
  `convertAzureResultToInternalFormat`, `analyzeStrengthsAndWeaknesses` and
  `generateScoreAdvice` (namespace `AzureSpeech`);
* `src/utils/sampleData.ts` — the synthetic fallback generator
  `generateCompleteFallbackEvaluation` and its helpers (namespace `SampleData`);
* `src/components/DetailedAnalysis.tsx` — the pause/timing analysis
  (namespace `DetailedAnalysis`);
* `src/App.tsx` — the `handleEvaluate` result assembly (namespace `App`).

JavaScript numbers are modelled as rationals; a value that may be `NaN`
(or a missing object field read as `undefined`, which behaves like `NaN`
inside arithmetic and comparisons) is modelled as `Option ℚ` with `none`
for `NaN`/`undefined`.  `Math.random()` is modelled as an injected stream
of rationals consumed left to right (the app reads ambient randomness;
the stream makes the same computation explicit and reproducible).
-/

/-- JsNum models a JavaScript number that may be `NaN` or an absent field
read as `undefined`: `none` stands for `NaN`/`undefined`. -/
abbrev JsNum := Option ℚ

/-- jsAdd models JavaScript `+` on numbers: `NaN` propagates. -/
def jsAdd : JsNum → JsNum → JsNum
  | some a, some b => some (a + b)
  | _, _ => none

/-- jsSub models JavaScript `-` on numbers: `NaN` propagates. -/
def jsSub : JsNum → JsNum → JsNum
  | some a, some b => some (a - b)
  | _, _ => none

/-- jsDivC models JavaScript division by a fixed nonzero numeric literal. -/
def jsDivC : JsNum → ℚ → JsNum
  | some a, c => some (a / c)
  | none, _ => none

/-- jsGt models JavaScript `x > c` for a fixed number `c`: every comparison
with `NaN` is false. -/
def jsGt : JsNum → ℚ → Bool
  | some a, c => decide (c < a)
  | none, _ => false

/-- jsGe models JavaScript `x >= c`: every comparison with `NaN` is false. -/
def jsGe : JsNum → ℚ → Bool
  | some a, c => decide (c ≤ a)
  | none, _ => false

/-- jsLt models JavaScript `x < c`: every comparison with `NaN` is false. -/
def jsLt : JsNum → ℚ → Bool
  | some a, c => decide (a < c)
  | none, _ => false

/-- jsTruthy models JavaScript truthiness of a numeric field: `undefined`,
`NaN` and `0` are falsy, every other number is truthy. -/
def jsTruthy : JsNum → Bool
  | some a => decide (a ≠ 0)
  | none => false

/-- jsOrDefault models `x || d` for a numeric field `x` and default number `d`. -/
def jsOrDefault (x : JsNum) (d : ℚ) : ℚ :=
  match x with
  | some a => if a = 0 then d else a
  | none => d

/-- jsTruthyStr models JavaScript truthiness of a string field: `undefined`
and the empty string are falsy. -/
def jsTruthyStr : Option String → Bool
  | some s => decide (s ≠ "")
  | none => false

/-- jsRound models `Math.round` on an actual number: half-way cases round
toward positive infinity. -/
def jsRound (q : ℚ) : ℚ := ((⌊q + 1/2⌋ : ℤ) : ℚ)

/-- jsRoundN models `Math.round` on a possibly-`NaN` number
(`Math.round(NaN)` is `NaN`). -/
def jsRoundN : JsNum → JsNum := Option.map jsRound

/-- jsIsSpace models the character class `\s` of a JavaScript regular
expression (ECMAScript WhiteSpace and LineTerminator code points). -/
def jsIsSpace (c : Char) : Bool :=
  (c.toNat ∈ [9, 10, 11, 12, 13, 32, 0xa0, 0x1680, 0x2028, 0x2029,
               0x202f, 0x205f, 0x3000, 0xfeff])
  || (0x2000 ≤ c.toNat && c.toNat ≤ 0x200a)

/-- stripJsSpace models `s.replace(/\s/g, '').split('')`: the characters of
`s` with every `\s` character removed. -/
def stripJsSpace (s : String) : List Char :=
  s.data.filter (fun c => !(jsIsSpace c))

/-- countTokens models `s.split(/\s+/).length`: one more than the number of
maximal whitespace runs in `s` (JavaScript keeps the empty strings that a
leading or trailing separator produces, and splitting the empty string
yields `[""]`). -/
def countTokensAux : List Char → Bool → Nat
  | [], _ => 0
  | c :: cs, inRun =>
    if jsIsSpace c then (if inRun then 0 else 1) + countTokensAux cs true
    else countTokensAux cs false

/-- countTokens: see `countTokensAux`. -/
def countTokens (s : String) : Nat :=
  countTokensAux s.data false + 1

/-- nextRand draws the next value from an injected `Math.random` stream
(0 once the stream is exhausted; a real execution never exhausts it). -/
def nextRand : List ℚ → ℚ × List ℚ
  | [] => (0, [])
  | r :: rest => (r, rest)

/-- validRandom states that every value of an injected random stream lies in
`[0, 1)`, as `Math.random` guarantees. -/
def validRandom (rs : List ℚ) : Prop := ∀ r ∈ rs, 0 ≤ r ∧ r < 1

/-- SyllableTiming is the syllable payload the assessment service attaches to
a word (`Offset`/`Duration` in the service's time unit); both fields are
absent (`undefined`) on the fallback paths. -/
structure SyllableTiming where
  Offset : JsNum
  Duration : JsNum
deriving DecidableEq

/-- PronunciationAssessmentFields is the nested per-word score object of the
assessment-service shape. -/
structure PronunciationAssessmentFields where
  AccuracyScore : JsNum
  ErrorType : Option String
deriving DecidableEq

/-- InputWord is one element of the `words` array reaching the normalizer.
It carries the capitalized fields of the assessment-service shape and the
lowercase fields of the synthetic-fallback shape; whichever set the actual
source did not produce is absent (`none` = `undefined`). -/
structure InputWord where
  Word : Option String
  PronunciationAssessment : Option PronunciationAssessmentFields
  Syllables : Option (List SyllableTiming)
  word : Option String
  accuracyScore : JsNum
deriving DecidableEq

/-- AzureResultInput is the upstream result object (`azureResult` in
`App.tsx`) as produced by one of the three sources.  The four trailing
fields exist only so the dead `strongPoints && …` branch of
`handleEvaluate` can be modelled; none of the three upstream constructions
sets them. -/
structure AzureResultInput where
  overallScore : JsNum
  accuracyScore : JsNum
  fluencyScore : JsNum
  completenessScore : JsNum
  prosodyScore : JsNum
  confidenceScore : JsNum
  pauseCount : JsNum
  words : List InputWord
  strongPoints : Option (List String)
  improvementAreas : Option (List String)
  problematicWords : Option (List String)
  scoreAdvice : Option String
deriving DecidableEq

/-- ConvertedWord is one element of the normalizer's output word list
(`word`/`accuracyScore`/`errorType` extracted from the capitalized nested
fields, `syllables` passed through). -/
structure ConvertedWord where
  word : Option String
  accuracyScore : JsNum
  errorType : Option String
  syllables : List SyllableTiming
deriving DecidableEq

/-- ConvertedResult is the normalizer's output
(`convertAzureResultToInternalFormat`); `syllables` and `phonemes` are
always assigned the empty array by the source. -/
structure ConvertedResult where
  overallScore : JsNum
  accuracyScore : JsNum
  fluencyScore : JsNum
  completenessScore : JsNum
  prosodyScore : JsNum
  confidenceScore : JsNum
  pauseCount : ℚ
  words : List ConvertedWord
  syllables : List Unit
  phonemes : List Unit
deriving DecidableEq

instance {ε α : Type} [DecidableEq ε] [DecidableEq α] : DecidableEq (Except ε α) := fun a b =>
  match a, b with
  | .error e1, .error e2 =>
    if h : e1 = e2 then isTrue (by subst h; rfl)
    else isFalse (fun hc => h (by injection hc))
  | .ok a1, .ok a2 =>
    if h : a1 = a2 then isTrue (by subst h; rfl)
    else isFalse (fun hc => h (by injection hc))
  | .error _, .ok _ => isFalse (fun hc => Except.noConfusion hc)
  | .ok _, .error _ => isFalse (fun hc => Except.noConfusion hc)

namespace AzureSpeech

/-- calculateSimpleAccuracy (azureSpeechUtils.ts): position-wise character
match count over the whitespace-stripped strings, divided by the longer
length, times 100, rounded.  When both stripped strings are empty the
source computes `0 / 0 = NaN` and `Math.round(NaN) = NaN`, modelled as
`none`. -/
def countMatches : List Char → List Char → Nat
  | a :: as, b :: bs => (if a = b then 1 else 0) + countMatches as bs
  | _, _ => 0

/-- calculateSimpleAccuracy: see `countMatches`. -/
def calculateSimpleAccuracy (transcript reference : String) : JsNum :=
  let transcriptChars := stripJsSpace transcript
  let referenceChars := stripJsSpace reference
  let maxLength := max transcriptChars.length referenceChars.length
  -- the source calls this local variable `matches`, a reserved word in Lean
  let matchCount := countMatches transcriptChars referenceChars
  if maxLength = 0 then none
  else some (jsRound ((matchCount : ℚ) / (maxLength : ℚ) * 100))

/-- calculateSimpleFluency (azureSpeechUtils.ts): ratio of
whitespace-delimited token counts (smaller over larger), times 100,
rounded.  `split(/\s+/)` always yields at least one element, so the
divisor is never 0. -/
def calculateSimpleFluency (transcript reference : String) : ℚ :=
  let transcriptWords := countTokens transcript
  let referenceWords := countTokens reference
  jsRound (((min transcriptWords referenceWords : ℕ) : ℚ)
    / ((max transcriptWords referenceWords : ℕ) : ℚ) * 100)

/-- calculateSimpleCompleteness (azureSpeechUtils.ts): ratio of
whitespace-stripped character counts (smaller over larger), times 100,
rounded; `0 / 0 = NaN` when both strings strip to empty. -/
def calculateSimpleCompleteness (transcript reference : String) : JsNum :=
  let transcriptLength := (stripJsSpace transcript).length
  let referenceLength := (stripJsSpace reference).length
  if max transcriptLength referenceLength = 0 then none
  else some (jsRound (((min transcriptLength referenceLength : ℕ) : ℚ)
    / ((max transcriptLength referenceLength : ℕ) : ℚ) * 100))

/-- browserRecognitionResult is the result object that
`evaluateWithBrowserSpeechRecognition` resolves with once the browser
recognizer delivers `transcript` (azureSpeechUtils.ts, the `onresult`
handler): the three heuristic scores, their unweighted rounded mean as
`overallScore`, zeros elsewhere and empty word/syllable/phoneme arrays. -/
def browserRecognitionResult (transcript referenceText : String) : AzureResultInput :=
  let accuracy := calculateSimpleAccuracy transcript referenceText
  let fluency := calculateSimpleFluency transcript referenceText
  let completeness := calculateSimpleCompleteness transcript referenceText
  { overallScore := jsRoundN (jsDivC (jsAdd (jsAdd accuracy (some fluency)) completeness) 3)
    accuracyScore := accuracy
    fluencyScore := some fluency
    completenessScore := completeness
    prosodyScore := some 0
    confidenceScore := some 0
    pauseCount := some 0
    words := []
    strongPoints := none
    improvementAreas := none
    problematicWords := none
    scoreAdvice := none }

/-- AzureWordJson is one entry of `detailResult.Words` in the assessment
service's response: capitalized word text, nested per-word scores, optional
syllable list and optional word-level `Offset`/`Duration`. -/
structure AzureWordJson where
  Word : String
  PronunciationAssessment : PronunciationAssessmentFields
  Syllables : Option (List SyllableTiming)
  Offset : JsNum
  Duration : JsNum
deriving DecidableEq

/-- DetailPronunciationAssessment is the top-level score object of
`detailResult.PronunciationAssessment` in the service's response. -/
structure DetailPronunciationAssessment where
  PronScore : ℚ
  AccuracyScore : ℚ
  FluencyScore : ℚ
  CompletenessScore : ℚ
deriving DecidableEq

/-- DetailResult is the part of the assessment service's response that
`evaluatePronunciationWithAzure` reads. -/
structure DetailResult where
  PronunciationAssessment : DetailPronunciationAssessment
  Words : List AzureWordJson
deriving DecidableEq

/-- azurePairCounted is the per-pair condition of the `calculatePauseCount`
closure inside `evaluatePronunciationWithAzure`: the guard is the JavaScript
truthiness of `currentWord.Duration` and `nextWord.Offset`, and the pause
fires when the gap, divided by 1000000, strictly exceeds 300.  When
`currentWord.Offset` is absent the gap is `NaN` and the comparison is
false. -/
def azurePairCounted (currentWord nextWord : AzureWordJson) : Bool :=
  jsTruthy currentWord.Duration && jsTruthy nextWord.Offset &&
    jsGt (jsDivC (jsSub nextWord.Offset (jsAdd currentWord.Offset currentWord.Duration)) 1000000) 300

/-- calculatePauseCount (the closure inside `evaluatePronunciationWithAzure`):
the loop over adjacent word pairs, counting pairs that satisfy
`azurePairCounted`. -/
def calculatePauseCount : List AzureWordJson → Nat
  | w1 :: w2 :: rest => (if azurePairCounted w1 w2 then 1 else 0) + calculatePauseCount (w2 :: rest)
  | _ => 0

/-- azureWordToInputWord is how an assessment-service word appears to the
normalizer: the capitalized fields are present, the lowercase
synthetic-shape fields are absent. -/
def azureWordToInputWord (w : AzureWordJson) : InputWord :=
  { Word := some w.Word
    PronunciationAssessment := some w.PronunciationAssessment
    Syllables := w.Syllables
    word := none
    accuracyScore := none }

/-- assessmentDataOf is the `assessmentData` object built by
`evaluatePronunciationWithAzure` from the service's `detailResult`:
`overallScore` is the service's `PronScore`, prosody and confidence are
hard-coded 0, `pauseCount` comes from the inner `calculatePauseCount`. -/
def assessmentDataOf (d : DetailResult) : AzureResultInput :=
  { overallScore := some d.PronunciationAssessment.PronScore
    accuracyScore := some d.PronunciationAssessment.AccuracyScore
    fluencyScore := some d.PronunciationAssessment.FluencyScore
    completenessScore := some d.PronunciationAssessment.CompletenessScore
    prosodyScore := some 0
    confidenceScore := some 0
    pauseCount := some ((calculatePauseCount d.Words : ℕ) : ℚ)
    words := d.Words.map azureWordToInputWord
    strongPoints := none
    improvementAreas := none
    problematicWords := none
    scoreAdvice := none }

/-- convertWord is the per-word body of the normalizer's `words.map`: it
reads `word.Word`, `word.PronunciationAssessment.AccuracyScore`,
`word.PronunciationAssessment.ErrorType` and `word.Syllables || []`.
Reading `.AccuracyScore` of an absent `PronunciationAssessment` throws a
`TypeError` in JavaScript, modelled as `Except.error`. -/
def convertWord (w : InputWord) : Except String ConvertedWord :=
  match w.PronunciationAssessment with
  | none => .error "TypeError: Cannot read properties of undefined (reading AccuracyScore)"
  | some pa =>
    .ok { word := w.Word
          accuracyScore := pa.AccuracyScore
          errorType := pa.ErrorType
          syllables := w.Syllables.getD [] }

/-- convertWords is `azureResult.words.map(...)` of the normalizer: the
first word whose conversion throws aborts the whole map. -/
def convertWords : List InputWord → Except String (List ConvertedWord)
  | [] => .ok []
  | w :: ws =>
    match convertWord w with
    | .error e => .error e
    | .ok c =>
      match convertWords ws with
      | .error e => .error e
      | .ok cs => .ok (c :: cs)

/-- convertAzureResultToInternalFormat (azureSpeechUtils.ts): the result
normalizer.  Scores pass through, prosody and confidence are reset to 0,
`pauseCount` is `azureResult.pauseCount || 0`, the word list is converted
element-wise, `syllables`/`phonemes` are set to the empty array. -/
def convertAzureResultToInternalFormat (azureResult : AzureResultInput) :
    Except String ConvertedResult :=
  match convertWords azureResult.words with
  | .error e => .error e
  | .ok ws =>
    .ok { overallScore := azureResult.overallScore
          accuracyScore := azureResult.accuracyScore
          fluencyScore := azureResult.fluencyScore
          completenessScore := azureResult.completenessScore
          prosodyScore := some 0
          confidenceScore := some 0
          pauseCount := jsOrDefault azureResult.pauseCount 0
          words := ws
          syllables := []
          phonemes := [] }

/-- analyzeStrengthsAndWeaknesses (azureSpeechUtils.ts): per sub-score, a
fixed strength label when the score is `>= 80`, else a fixed improvement
label when it is `< 60`; labels are pushed in the fixed order accuracy,
fluency, completeness, prosody. -/
def analyzeStrengthsAndWeaknesses (accuracyScore fluencyScore completenessScore prosodyScore :
    JsNum) : List String × List String :=
  let strongPoints :=
    (if jsGe accuracyScore 80 then ["정확한 발음"] else []) ++
    (if jsGe fluencyScore 80 then ["좋은 유창성"] else []) ++
    (if jsGe completenessScore 80 then ["완전한 문장 구사"] else []) ++
    (if jsGe prosodyScore 80 then ["자연스러운 억양"] else [])
  let improvementAreas :=
    (if !jsGe accuracyScore 80 && jsLt accuracyScore 60 then ["기본 발음 정확성"] else []) ++
    (if !jsGe fluencyScore 80 && jsLt fluencyScore 60 then ["말하기 속도와 리듬"] else []) ++
    (if !jsGe completenessScore 80 && jsLt completenessScore 60 then ["문장 완성도"] else []) ++
    (if !jsGe prosodyScore 80 && jsLt prosodyScore 60 then ["성조와 억양"] else [])
  (strongPoints, improvementAreas)

/-- generateScoreAdvice (azureSpeechUtils.ts): five advice strings selected
by a cascade of `>=` threshold tests at 90, 80, 70 and 60. -/
def generateScoreAdvice (overallScore : JsNum) : String :=
  if jsGe overallScore 90 then
    "원어민 수준에 근접했습니다! 다양한 주제로 연습을 확장해보세요."
  else if jsGe overallScore 80 then
    "매우 좋은 발음이에요. 성조와 억양을 조금 더 다듬으면 완벽해질 것 같아요."
  else if jsGe overallScore 70 then
    "좋은 기반을 갖추고 있어요. 더 많은 연습으로 완성도를 높여보세요."
  else if jsGe overallScore 60 then
    "기본기는 갖추었지만 더 많은 연습이 필요해요. 성조와 기본 음소를 반복 연습하세요."
  else
    "기초부터 차근차근 연습해보세요. 천천히 정확하게 발음하는 것에 집중하세요."

end AzureSpeech

namespace SampleData

/-- isChineseChar models the regular-expression class `[一-鿿]` used
by `calculateTextComplexity`. -/
def isChineseChar (c : Char) : Bool :=
  0x4e00 ≤ c.toNat && c.toNat ≤ 0x9fff

/-- isComplexityPunct models the class `[。！？，、；：]` used by
`calculateTextComplexity`. -/
def isComplexityPunct (c : Char) : Bool :=
  c ∈ ['。', '！', '？', '，', '、', '；', '：']

/-- isDigitChar models the class `[0-9]`. -/
def isDigitChar (c : Char) : Bool :=
  '0' ≤ c && c ≤ '9'

/-- calculateTextComplexity (sampleData.ts): capped contributions of the
Chinese-character, punctuation and digit counts and of the total length,
the sum capped at 5. -/
def calculateTextComplexity (text : String) : ℚ :=
  let chineseChars := text.data.filter isChineseChar
  let punctuation := text.data.filter isComplexityPunct
  let numbers := text.data.filter isDigitChar
  let complexity : ℚ :=
    min 2 ((chineseChars.length : ℚ) / 20) + min 1 ((punctuation.length : ℚ) / 5) +
    min 1 ((numbers.length : ℚ) / 3) + min 1 ((text.length : ℚ) / 50)
  min 5 complexity

/-- Modelled from the spec: `calculateOverallScore` is imported from
`src/utils/evaluationUtils.ts`, a file not present in the provided sources.
The spec (section 3) calls `overallScore` an aggregate of the four
sub-scores and (section 9) proposes the unweighted mean of the four as the
single documented formula; the rounded unweighted mean also reproduces all
three hard-coded samples in `sampleData.ts` (e.g. (92+89+95+88)/4 = 91,
(78+82+85+75)/4 = 80, (55+62+70+48)/4 rounds to 59). -/
def calculateOverallScore (accuracyScore fluencyScore completenessScore prosodyScore : ℚ) : ℚ :=
  jsRound ((accuracyScore + fluencyScore + completenessScore + prosodyScore) / 4)

/-- isWordSeparator models the split class `[\s，。！？、；：]` of
`generateWordAnalysis`. -/
def isWordSeparator (c : Char) : Bool :=
  jsIsSpace c || c ∈ ['，', '。', '！', '？', '、', '；', '：']

/-- splitSegmentsAux: the segments `text.split(/[\s，。！？、；：]/)`
produces (consecutive separators yield empty segments, kept here and
dropped by the filter in `splitWords`). -/
def splitSegmentsAux : List Char → List Char → List String
  | [], acc => [String.mk acc.reverse]
  | c :: cs, acc =>
    if isWordSeparator c then String.mk acc.reverse :: splitSegmentsAux cs []
    else splitSegmentsAux cs (c :: acc)

/-- splitWords (the word splitting of `generateWordAnalysis`): split on the
separator class, then keep segments with `word.trim().length > 0`.  A
segment never contains whitespace (whitespace belongs to the split class),
so the trim is the identity and the filter is plain nonemptiness. -/
def splitWords (text : String) : List String :=
  (splitSegmentsAux text.data []).filter (fun w => w.length > 0)

/-- GenSyllable is one entry of a synthetic word's `syllables` array. -/
structure GenSyllable where
  syllable : String
  accuracyScore : ℚ
deriving DecidableEq

/-- PhonemeEntry is one entry of a synthetic word's `phonemes` array. -/
structure PhonemeEntry where
  phoneme : String
  accuracyScore : ℚ
deriving DecidableEq

/-- BreakFeedback is the `break` payload of the synthetic prosody feedback. -/
structure BreakFeedback where
  errorTypes : List String
  confidence : ℚ
  duration : ℚ
deriving DecidableEq

/-- MonotoneFeedback is the `monotone` payload of the synthetic intonation
feedback. -/
structure MonotoneFeedback where
  confidence : ℚ
  detected : Bool
deriving DecidableEq

/-- PitchRange is the `pitchRange` payload of the synthetic intonation
feedback. -/
structure PitchRange where
  min : ℚ
  max : ℚ
  average : ℚ
deriving DecidableEq

/-- IntonationFeedback is the `intonation` payload of the synthetic prosody
feedback. -/
structure IntonationFeedback where
  monotone : MonotoneFeedback
  pitchRange : PitchRange
deriving DecidableEq

/-- ProsodyInfo is the `prosody` object of the synthetic feedback; either
sub-object may be `undefined`. -/
structure ProsodyInfo where
  «break» : Option BreakFeedback
  intonation : Option IntonationFeedback
deriving DecidableEq

/-- ProsodyFeedback is the `feedback` object attached to each synthetic
word. -/
structure ProsodyFeedback where
  prosody : ProsodyInfo
deriving DecidableEq

/-- generateProsodyFeedback (sampleData.ts): random break/intonation error
simulation; the `wordScore` parameter is accepted and ignored exactly as in
the source. -/
def generateProsodyFeedback (wordScore : ℚ) (rs : List ℚ) : ProsodyFeedback × List ℚ :=
  let r1 := (nextRand rs).1
  let rs1 := (nextRand rs).2
  let hasBreakError := decide (r1 < (3/10 : ℚ))
  let r2 := (nextRand rs1).1
  let rs2 := (nextRand rs1).2
  let hasIntonationError := decide (r2 < (2/5 : ℚ))
  let breakPick : List String × List ℚ :=
    if hasBreakError then
      ((if (nextRand rs2).1 < (1/2 : ℚ) then ["UnexpectedBreak"] else ["MissingBreak"]),
       (nextRand rs2).2)
    else (([] : List String), rs2)
  let breakErrorTypes := breakPick.1
  let rs3 := breakPick.2
  let breakBuild : Option BreakFeedback × List ℚ :=
    if breakErrorTypes.length > 0 then
      (some { errorTypes := breakErrorTypes
              confidence := 7/10 + (nextRand rs3).1 * (3/10)
              duration := 1/10 + (nextRand (nextRand rs3).2).1 * (1/2) },
       (nextRand (nextRand rs3).2).2)
    else ((none : Option BreakFeedback), rs3)
  let rs4 := breakBuild.2
  let intonationBuild : Option IntonationFeedback × List ℚ :=
    if hasIntonationError then
      (some { monotone := { confidence := 3/5 + (nextRand rs4).1 * (2/5), detected := true }
              pitchRange := { min := 100 + (nextRand (nextRand rs4).2).1 * 50
                              max := 200 + (nextRand (nextRand (nextRand rs4).2).2).1 * 100
                              average :=
                                150 + (nextRand (nextRand (nextRand (nextRand rs4).2).2).2).1 * 50 } },
       (nextRand (nextRand (nextRand (nextRand rs4).2).2).2).2)
    else ((none : Option IntonationFeedback), rs4)
  ({ prosody := { «break» := breakBuild.1, intonation := intonationBuild.1 } }, intonationBuild.2)

/-- phonemeMap (sampleData.ts): the hard-coded pinyin decomposition table of
`generatePhonemes`.  The source object literal repeats the key '常' with an
identical value; an object literal keeps one entry for it. -/
def phonemeMap : List (Char × List String) :=
  [('张', ["zh", "āng"]), ('老', ["l", "ǎo"]), ('师', ["sh", "ī"]), ('常', ["ch", "áng"]),
   ('认', ["r", "èn"]), ('真', ["zh", "ēn"]), ('地', ["d", "ì"]),
   ('教', ["j", "iào"]), ('我', ["w", "ǒ"]), ('们', ["m", "én"]), ('中', ["zh", "ōng"]),
   ('文', ["w", "én"]), ('他', ["t", "ā"]), ('说', ["sh", "uō"]), ('学', ["x", "ué"]),
   ('习', ["x", "í"]), ('需', ["x", "ū"]), ('要', ["y", "ào"]), ('多', ["d", "uō"]),
   ('练', ["l", "iàn"]), ('尤', ["y", "óu"]), ('其', ["q", "í"]), ('是', ["sh", "ì"]),
   ('卷', ["j", "uǎn"]), ('舌', ["sh", "é"]), ('音', ["y", "īn"]), ('只', ["zh", "ǐ"]),
   ('有', ["y", "ǒu"]), ('这', ["zh", "è"]), ('样', ["y", "àng"]), ('才', ["c", "ái"]),
   ('能', ["n", "éng"]), ('出', ["ch", "ū"]), ('更', ["g", "èng"]), ('标', ["b", "iāo"]),
   ('准', ["zh", "ǔn"]), ('流', ["l", "iú"]), ('利', ["l", "ì"]), ('的', ["d", "e"]),
   ('汉', ["h", "àn"]), ('语', ["y", "ǔ"])]

/-- phonemesForChar: the inner `phonemeList.map` of `generatePhonemes`, one
random draw per phoneme. -/
def phonemesForChar (baseScore : ℚ) : List String → List ℚ → List PhonemeEntry × List ℚ
  | [], rs => ([], rs)
  | p :: ps, rs =>
    let entry : PhonemeEntry :=
      { phoneme := p, accuracyScore := max 20 (baseScore + ((nextRand rs).1 - 1/2) * 25) }
    (entry :: (phonemesForChar baseScore ps (nextRand rs).2).1,
     (phonemesForChar baseScore ps (nextRand rs).2).2)

/-- generatePhonemesAux: the outer `word.split('').map(...).flat()` of
`generatePhonemes`. -/
def generatePhonemesAux (baseScore : ℚ) : List Char → List ℚ → List PhonemeEntry × List ℚ
  | [], rs => ([], rs)
  | c :: cs, rs =>
    let phonemeList := (List.lookup c phonemeMap).getD [String.mk [c]]
    let charPair := phonemesForChar baseScore phonemeList rs
    (charPair.1 ++ (generatePhonemesAux baseScore cs charPair.2).1,
     (generatePhonemesAux baseScore cs charPair.2).2)

/-- generatePhonemes (sampleData.ts): per character, the mapped pinyin
phonemes (or the character itself when unmapped), each with a randomly
perturbed score floored at 20. -/
def generatePhonemes (word : String) (baseScore : ℚ) (rs : List ℚ) :
    List PhonemeEntry × List ℚ :=
  generatePhonemesAux baseScore word.data rs

/-- genSyllablesAux: the `word.split('').map` building a synthetic word's
syllables, one random draw per character, score floored at 30. -/
def genSyllablesAux (wordScore : ℚ) : List Char → List ℚ → List GenSyllable × List ℚ
  | [], rs => ([], rs)
  | c :: cs, rs =>
    let syl : GenSyllable :=
      { syllable := String.mk [c], accuracyScore := max 30 (wordScore + ((nextRand rs).1 - 1/2) * 20) }
    (syl :: (genSyllablesAux wordScore cs (nextRand rs).2).1,
     (genSyllablesAux wordScore cs (nextRand rs).2).2)

/-- GenWord is one entry of the synthetic generator's `words` array. -/
structure GenWord where
  word : String
  accuracyScore : ℚ
  errorType : String
  syllables : List GenSyllable
  phonemes : List PhonemeEntry
  feedback : ProsodyFeedback
deriving DecidableEq

/-- errorTypes (sampleData.ts): the five-element array the per-word
error-type pick indexes into; note that it contains 'None'. -/
def errorTypes : List String :=
  ["None", "Mispronunciation", "Omission", "Insertion", "UnexpectedBreak"]

/-- generateOneWord: the body of `generateWordAnalysis`'s `words.map`.  The
error-type pick `errorTypes[Math.floor(Math.random() * errorTypes.length)]`
only draws a random value when `wordScore <= 80`; the `getD`/`toNat`
defaults are never exercised for a random value in `[0,1)`, where the index
is 0..4. -/
def generateOneWord (baseAccuracy : ℚ) (word : String) (rs : List ℚ) : GenWord × List ℚ :=
  let rs1 := (nextRand rs).2
  let wordScore := max 40 (min 100 (baseAccuracy + ((nextRand rs).1 - 1/2) * 30))
  let errorPick : String × List ℚ :=
    if wordScore > 80 then ("None", rs1)
    else (errorTypes.getD (⌊(nextRand rs1).1 * (errorTypes.length : ℚ)⌋).toNat "",
          (nextRand rs1).2)
  let sylPair := genSyllablesAux wordScore word.data errorPick.2
  let phonemePair := generatePhonemes word wordScore sylPair.2
  let feedbackPair := generateProsodyFeedback wordScore phonemePair.2
  ({ word := word
     accuracyScore := jsRound wordScore
     errorType := errorPick.1
     syllables := sylPair.1
     phonemes := phonemePair.1
     feedback := feedbackPair.1 }, feedbackPair.2)

/-- generateWordAnalysisAux: `words.map(word => ...)` with the random stream
threaded left to right. -/
def generateWordAnalysisAux (baseAccuracy : ℚ) : List String → List ℚ → List GenWord × List ℚ
  | [], rs => ([], rs)
  | w :: ws, rs =>
    let wordPair := generateOneWord baseAccuracy w rs
    (wordPair.1 :: (generateWordAnalysisAux baseAccuracy ws wordPair.2).1,
     (generateWordAnalysisAux baseAccuracy ws wordPair.2).2)

/-- generateWordAnalysis (sampleData.ts): split the text into words and
generate one synthetic analysis per word. -/
def generateWordAnalysis (text : String) (baseAccuracy : ℚ) (rs : List ℚ) :
    List GenWord × List ℚ :=
  generateWordAnalysisAux baseAccuracy (splitWords text) rs

/-- EvaluationResultGen is the `EvaluationResult` record returned by
`generateCompleteFallbackEvaluation`. -/
structure EvaluationResultGen where
  accuracyScore : ℚ
  fluencyScore : ℚ
  completenessScore : ℚ
  prosodyScore : ℚ
  overallScore : ℚ
  words : List GenWord
  pauseCount : ℚ
  confidenceScore : ℚ
  strongPoints : List String
  improvementAreas : List String
  problematicWords : List String
  scoreAdvice : String
deriving DecidableEq

/-- generateCompleteFallbackEvaluation (sampleData.ts): the synthetic
fallback generator.  Base scores derive from the text complexity, each
sub-score gets a `(Math.random()-0.5)*10` perturbation and is rounded, the
pause count comes from the text length plus a random 0..2, the overall
score is `calculateOverallScore` of the four sub-scores, confidence is
`max(0, 100 - pauseCount * 8)`, and `problematicWords` filters the
generated words below 70. -/
def generateCompleteFallbackEvaluation (text : String) (rs : List ℚ) : EvaluationResultGen :=
  let textLength := (text.length : ℚ)
  let complexity := calculateTextComplexity text
  let baseAccuracy := max 70 (85 - complexity * 5)
  let baseFluency := max 75 (90 - complexity * 3)
  let baseCompleteness := max 80 (95 - textLength * (1/2))
  let baseProsody := max 65 (85 - complexity * 4)
  let rs1 := (nextRand rs).2
  let accuracyScore := jsRound (baseAccuracy + ((nextRand rs).1 - 1/2) * 10)
  let rs2 := (nextRand rs1).2
  let fluencyScore := jsRound (baseFluency + ((nextRand rs1).1 - 1/2) * 10)
  let rs3 := (nextRand rs2).2
  let completenessScore := jsRound (baseCompleteness + ((nextRand rs2).1 - 1/2) * 10)
  let rs4 := (nextRand rs3).2
  let prosodyScore := jsRound (baseProsody + ((nextRand rs3).1 - 1/2) * 10)
  let rs5 := (nextRand rs4).2
  let pauseCount := ((⌊textLength / 20⌋ + ⌊(nextRand rs4).1 * 3⌋ : ℤ) : ℚ)
  let overallScore := calculateOverallScore accuracyScore fluencyScore completenessScore prosodyScore
  let confidenceScore := max 0 (100 - pauseCount * 8)
  let analysis := AzureSpeech.analyzeStrengthsAndWeaknesses
    (some accuracyScore) (some fluencyScore) (some completenessScore) (some prosodyScore)
  let scoreAdvice := AzureSpeech.generateScoreAdvice (some overallScore)
  let wordsPair := generateWordAnalysis text accuracyScore rs5
  let words := wordsPair.1
  let problematicWords := (words.filter (fun w => decide (w.accuracyScore < 70))).map (fun w => w.word)
  { accuracyScore := accuracyScore
    fluencyScore := fluencyScore
    completenessScore := completenessScore
    prosodyScore := prosodyScore
    overallScore := overallScore
    words := words
    pauseCount := pauseCount
    confidenceScore := confidenceScore
    strongPoints := analysis.1
    improvementAreas := analysis.2
    problematicWords := problematicWords
    scoreAdvice := scoreAdvice }

end SampleData

namespace DetailedAnalysis

/-- pairGap: the pause duration computed for one adjacent word pair in the
pause helpers of `DetailedAnalysis.tsx`: the gap from the end of the
current word's last syllable to the start of the next word's first
syllable, divided by 1000000.  `none` covers both the skipped case (a word
without syllables) and the `NaN` case (syllables without `Offset` or
`Duration`), which the source's comparisons treat identically. -/
def pairGap (currentWord nextWord : ConvertedWord) : JsNum :=
  if currentWord.syllables.length > 0 && nextWord.syllables.length > 0 then
    match currentWord.syllables.getLast?, nextWord.syllables.head? with
    | some lastSyl, some firstSyl =>
      jsDivC (jsSub firstSyl.Offset (jsAdd lastSyl.Offset lastSyl.Duration)) 1000000
    | _, _ => none
  else none

/-- wordHasTiming: a word carries usable syllable timing, i.e. it has
syllables and at least one of the timing fields the pause computation
reads (last syllable's `Offset`/`Duration`, first syllable's `Offset`). -/
def wordHasTiming (w : ConvertedWord) : Bool :=
  w.syllables.length > 0 &&
    ((match w.syllables.getLast? with
      | some s => s.Offset.isSome && s.Duration.isSome
      | none => false) ||
     (match w.syllables.head? with
      | some s => s.Offset.isSome
      | none => false))

/-- pauseCountAux: the loop of `calculatePauseCount` over adjacent pairs. -/
def pauseCountAux : List ConvertedWord → Nat
  | w1 :: w2 :: rest => (if jsGt (pairGap w1 w2) 300 then 1 else 0) + pauseCountAux (w2 :: rest)
  | _ => 0

/-- calculatePauseCount (DetailedAnalysis.tsx): count the adjacent pairs
whose pause duration strictly exceeds 300 ms. -/
def calculatePauseCount (words : List ConvertedWord) : Nat :=
  pauseCountAux words

/-- pausesListAux: the `pauses` array of `calculateAveragePauseDuration`;
only gaps strictly above 300 are pushed (a `NaN` comparison is false, so a
`NaN` gap is never pushed). -/
def pausesListAux : List ConvertedWord → List ℚ
  | w1 :: w2 :: rest =>
    (match pairGap w1 w2 with
     | some g => if 300 < g then [g] else []
     | none => []) ++ pausesListAux (w2 :: rest)
  | _ => []

/-- calculateAveragePauseDuration (DetailedAnalysis.tsx): the mean of the
collected pauses, 0 when there are none. -/
def calculateAveragePauseDuration (words : List ConvertedWord) : ℚ :=
  let pauses := pausesListAux words
  if pauses.length > 0 then pauses.sum / (pauses.length : ℚ) else 0

/-- longestAux: the loop of `calculateLongestPause`, keeping the running
maximum (a `NaN` gap never replaces it because `NaN > x` is false). -/
def longestAux : List ConvertedWord → ℚ → ℚ
  | w1 :: w2 :: rest, longestPause =>
    let next :=
      match pairGap w1 w2 with
      | some g => if longestPause < g then g else longestPause
      | none => longestPause
    longestAux (w2 :: rest) next
  | _, longestPause => longestPause

/-- calculateLongestPause (DetailedAnalysis.tsx): the largest pause
duration, starting from 0. -/
def calculateLongestPause (words : List ConvertedWord) : ℚ :=
  longestAux words 0

end DetailedAnalysis

namespace App

/-- EvaluationResult is the final record `handleEvaluate` stores
(`EvaluationResultType` in `App.tsx`).  Word texts inside
`problematicWords` keep the `Option String` element type of converted
words (a converted synthetic word would have an `undefined` text). -/
structure EvaluationResult where
  accuracyScore : JsNum
  fluencyScore : JsNum
  completenessScore : JsNum
  prosodyScore : JsNum
  overallScore : JsNum
  words : List ConvertedWord
  pauseCount : ℚ
  confidenceScore : ℚ
  strongPoints : List String
  improvementAreas : List String
  problematicWords : List (Option String)
  scoreAdvice : String
deriving DecidableEq

/-- handleEvaluate (App.tsx, lines 434-525 of the second revision in the
file): normalize the upstream result, then either reuse the analysis
fields carried by the upstream object (`strongPoints && improvementAreas
&& scoreAdvice` all truthy — dead in practice, as no upstream construction
carries them) or recompute them, and derive `confidenceScore` from the
converted pause count.  The surrounding UI state updates and session
persistence are omitted; `Except.error` models an exception reaching the
outer catch.  In the reused branch the embedding wraps the plain strings
of `problematicWords` in `some` to share the element type with the
recomputed branch. -/
def handleEvaluate (azureResult : AzureResultInput) : Except String EvaluationResult :=
  match AzureSpeech.convertAzureResultToInternalFormat azureResult with
  | .error e => .error e
  | .ok convertedResult =>
    let useIncluded := azureResult.strongPoints.isSome &&
      azureResult.improvementAreas.isSome && jsTruthyStr azureResult.scoreAdvice
    let analysis := AzureSpeech.analyzeStrengthsAndWeaknesses
      convertedResult.accuracyScore convertedResult.fluencyScore
      convertedResult.completenessScore convertedResult.prosodyScore
    .ok { accuracyScore := convertedResult.accuracyScore
          fluencyScore := convertedResult.fluencyScore
          completenessScore := convertedResult.completenessScore
          prosodyScore := convertedResult.prosodyScore
          overallScore := convertedResult.overallScore
          words := convertedResult.words
          pauseCount := convertedResult.pauseCount
          confidenceScore := max 0 (100 - convertedResult.pauseCount * 10)
          strongPoints := if useIncluded then azureResult.strongPoints.getD [] else analysis.1
          improvementAreas :=
            if useIncluded then azureResult.improvementAreas.getD [] else analysis.2
          problematicWords :=
            if useIncluded then (azureResult.problematicWords.getD []).map some
            else (convertedResult.words.filter (fun w => jsLt w.accuracyScore 70)).map
              (fun w => w.word)
          scoreAdvice :=
            if useIncluded then azureResult.scoreAdvice.getD ""
            else AzureSpeech.generateScoreAdvice convertedResult.overallScore }

/-- genWordToInputWord: how a synthetic word looks to the normalizer — only
the lowercase fields are present. -/
def genWordToInputWord (w : SampleData.GenWord) : InputWord :=
  { Word := none
    PronunciationAssessment := none
    Syllables := none
    word := some w.word
    accuracyScore := some w.accuracyScore }

/-- fallbackAsAzureResult: the `azureResult` object `handleEvaluate` builds
from `generateCompleteFallbackEvaluation` on the final fallback path
(App.tsx lines 467-476); note it copies only the score/word fields, not
`strongPoints`/`improvementAreas`/`problematicWords`/`scoreAdvice`. -/
def fallbackAsAzureResult (text : String) (rs : List ℚ) : AzureResultInput :=
  let fallbackResult := SampleData.generateCompleteFallbackEvaluation text rs
  { overallScore := some fallbackResult.overallScore
    accuracyScore := some fallbackResult.accuracyScore
    fluencyScore := some fallbackResult.fluencyScore
    completenessScore := some fallbackResult.completenessScore
    prosodyScore := some fallbackResult.prosodyScore
    confidenceScore := some fallbackResult.confidenceScore
    pauseCount := some fallbackResult.pauseCount
    words := fallbackResult.words.map genWordToInputWord
    strongPoints := none
    improvementAreas := none
    problematicWords := none
    scoreAdvice := none }

/-- fromUpstream: the upstream result object comes from one of the three
actual sources — the assessment service, the browser-recognition fallback,
or the synthetic fallback. -/
def fromUpstream (r : AzureResultInput) : Prop :=
  (∃ d, r = AzureSpeech.assessmentDataOf d) ∨
  (∃ transcript referenceText,
      r = AzureSpeech.browserRecognitionResult transcript referenceText) ∨
  (∃ text rs, r = fallbackAsAzureResult text rs)

end App

/-- convertedOfAzureWord: the image of an assessment-service word under the
normalizer's per-word conversion — capitalized fields renamed into the
lowercase internal ones, syllables defaulted to the empty array. -/
def convertedOfAzureWord (w : AzureSpeech.AzureWordJson) : ConvertedWord :=
  { word := some w.Word
    accuracyScore := w.PronunciationAssessment.AccuracyScore
    errorType := w.PronunciationAssessment.ErrorType
    syllables := w.Syllables.getD [] }

/-! Helper lemmas. -/

/-- countMatches is symmetric: position-wise character equality is. -/
lemma countMatches_comm : ∀ l1 l2 : List Char,
    AzureSpeech.countMatches l1 l2 = AzureSpeech.countMatches l2 l1 := by
  intro l1
  induction l1 with
  | nil => intro l2; cases l2 <;> rfl
  | cons a as ih =>
    intro l2
    cases l2 with
    | nil => rfl
    | cons b bs => simp [AzureSpeech.countMatches, ih bs, eq_comm]

/-- countMatches never exceeds either length. -/
lemma countMatches_le_min : ∀ l1 l2 : List Char,
    AzureSpeech.countMatches l1 l2 ≤ min l1.length l2.length := by
  intro l1
  induction l1 with
  | nil => intro l2; cases l2 <;> simp [AzureSpeech.countMatches]
  | cons a as ih =>
    intro l2
    cases l2 with
    | nil => simp [AzureSpeech.countMatches]
    | cons b bs =>
      have := ih bs
      simp only [AzureSpeech.countMatches, List.length_cons]
      split <;> omega

/-- jsRound stays within a closed interval with integer endpoints. -/
lemma jsRound_bounds {x lo hi : ℚ} (hlo : lo ≤ x) (hhi : x ≤ hi)
    (hloInt : ∃ n : ℤ, lo = (n : ℚ)) (hhiInt : ∃ n : ℤ, hi = (n : ℚ)) :
    lo ≤ jsRound x ∧ jsRound x ≤ hi := by
  obtain ⟨nlo, rfl⟩ := hloInt
  obtain ⟨nhi, rfl⟩ := hhiInt
  unfold jsRound
  constructor
  · have h1 : (nlo : ℚ) ≤ x + 1/2 := by linarith
    have h2 : nlo ≤ ⌊x + 1/2⌋ := Int.le_floor.mpr h1
    exact_mod_cast h2
  · have h1 : (⌊x + 1/2⌋ : ℚ) ≤ x + 1/2 := Int.floor_le _
    have h2 : (⌊x + 1/2⌋ : ℚ) < (nhi : ℚ) + 1 := by linarith
    have h3 : ⌊x + 1/2⌋ < nhi + 1 := by exact_mod_cast h2
    have h4 : ⌊x + 1/2⌋ ≤ nhi := by omega
    exact_mod_cast h4

/-! Claim theorems. -/

/-- C5: `generateScoreAdvice` is total on scores and maps the five bands
[90,∞), [80,90), [70,80), [60,70) and (-∞,60) — in particular [0,60) — to
five fixed advice strings, each band closed at its lower bound; the spec's
boundary probes at 95/90/89 and the analogous probes at 80, 70 and 60
behave as stated. -/
theorem generateScoreAdvice_five_bands :
    (∀ s : ℚ,
      (90 ≤ s → AzureSpeech.generateScoreAdvice (some s) =
        "원어민 수준에 근접했습니다! 다양한 주제로 연습을 확장해보세요.") ∧
      (80 ≤ s ∧ s < 90 → AzureSpeech.generateScoreAdvice (some s) =
        "매우 좋은 발음이에요. 성조와 억양을 조금 더 다듬으면 완벽해질 것 같아요.") ∧
      (70 ≤ s ∧ s < 80 → AzureSpeech.generateScoreAdvice (some s) =
        "좋은 기반을 갖추고 있어요. 더 많은 연습으로 완성도를 높여보세요.") ∧
      (60 ≤ s ∧ s < 70 → AzureSpeech.generateScoreAdvice (some s) =
        "기본기는 갖추었지만 더 많은 연습이 필요해요. 성조와 기본 음소를 반복 연습하세요.") ∧
      (s < 60 → AzureSpeech.generateScoreAdvice (some s) =
        "기초부터 차근차근 연습해보세요. 천천히 정확하게 발음하는 것에 집중하세요.")) ∧
    AzureSpeech.generateScoreAdvice (some 95) = AzureSpeech.generateScoreAdvice (some 90) ∧
    AzureSpeech.generateScoreAdvice (some 90) ≠ AzureSpeech.generateScoreAdvice (some 89) ∧
    AzureSpeech.generateScoreAdvice (some 85) = AzureSpeech.generateScoreAdvice (some 80) ∧
    AzureSpeech.generateScoreAdvice (some 80) ≠ AzureSpeech.generateScoreAdvice (some 79) ∧
    AzureSpeech.generateScoreAdvice (some 75) = AzureSpeech.generateScoreAdvice (some 70) ∧
    AzureSpeech.generateScoreAdvice (some 70) ≠ AzureSpeech.generateScoreAdvice (some 69) ∧
    AzureSpeech.generateScoreAdvice (some 65) = AzureSpeech.generateScoreAdvice (some 60) ∧
    AzureSpeech.generateScoreAdvice (some 60) ≠ AzureSpeech.generateScoreAdvice (some 59) := by
  constructor
  · intro s
    refine ⟨fun h => ?_, fun h => ?_, fun h => ?_, fun h => ?_, fun h => ?_⟩
    · simp [AzureSpeech.generateScoreAdvice, jsGe, h]
    · have h90 : ¬(90 : ℚ) ≤ s := by linarith [h.2]
      simp [AzureSpeech.generateScoreAdvice, jsGe, h90, h.1]
    · have h90 : ¬(90 : ℚ) ≤ s := by linarith [h.2]
      have h80 : ¬(80 : ℚ) ≤ s := by linarith [h.2]
      simp [AzureSpeech.generateScoreAdvice, jsGe, h90, h80, h.1]
    · have h90 : ¬(90 : ℚ) ≤ s := by linarith [h.2]
      have h80 : ¬(80 : ℚ) ≤ s := by linarith [h.2]
      have h70 : ¬(70 : ℚ) ≤ s := by linarith [h.2]
      simp [AzureSpeech.generateScoreAdvice, jsGe, h90, h80, h70, h.1]
    · have h90 : ¬(90 : ℚ) ≤ s := by linarith
      have h80 : ¬(80 : ℚ) ≤ s := by linarith
      have h70 : ¬(70 : ℚ) ≤ s := by linarith
      have h60 : ¬(60 : ℚ) ≤ s := by linarith
      simp [AzureSpeech.generateScoreAdvice, jsGe, h90, h80, h70, h60]
  · refine ⟨?_, ?_, ?_, ?_, ?_, ?_, ?_, ?_⟩ <;> with_unfolding_all decide

/-- Witness for C5: the theorem instantiated at 95 yields the top-band
advice string. -/
theorem generateScoreAdvice_five_bands_witness :
    AzureSpeech.generateScoreAdvice (some 95) =
      "원어민 수준에 근접했습니다! 다양한 주제로 연습을 확장해보세요." :=
  (generateScoreAdvice_five_bands.1 95).1 (by norm_num)

/-- C10: the three on-device heuristic scorers are commutative in their two
string arguments: match counting compares position-wise (symmetric) and the
denominators use min/max of the two lengths (symmetric). -/
theorem simple_scorers_commutative :
    ∀ a b : String,
      AzureSpeech.calculateSimpleAccuracy a b = AzureSpeech.calculateSimpleAccuracy b a ∧
      AzureSpeech.calculateSimpleFluency a b = AzureSpeech.calculateSimpleFluency b a ∧
      AzureSpeech.calculateSimpleCompleteness a b = AzureSpeech.calculateSimpleCompleteness b a := by
  intro a b
  refine ⟨?_, ?_, ?_⟩
  · simp only [AzureSpeech.calculateSimpleAccuracy, Nat.max_comm]
    rw [countMatches_comm (stripJsSpace a) (stripJsSpace b)]
  · simp only [AzureSpeech.calculateSimpleFluency, Nat.max_comm, Nat.min_comm]
  · simp only [AzureSpeech.calculateSimpleCompleteness, Nat.max_comm, Nat.min_comm]

/-- C8 counterexample: on two empty (or whitespace-only) inputs both
stripped lengths are 0 and the source computes `0 / 0`, which is `NaN` in
JavaScript (`Math.round(NaN) = NaN`) — not a number in `[0,100]`, contrary
to the claim's unrestricted "with the result in [0,100]".  `none` is this
model's `NaN`. -/
theorem calculateSimpleAccuracy_empty_is_NaN :
    AzureSpeech.calculateSimpleAccuracy "" "" = none := by
  with_unfolding_all decide

/-- C8 (amended): whenever at least one input has a non-whitespace
character, `calculateSimpleAccuracy` returns an actual number, every
returned number lies in [0,100], and the two probe values of the spec hold;
only the two-empty-strings case yields `NaN`. -/
theorem calculateSimpleAccuracy_spec :
    (∀ t r q, AzureSpeech.calculateSimpleAccuracy t r = some q → 0 ≤ q ∧ q ≤ 100) ∧
    (∀ t r, 0 < max (stripJsSpace t).length (stripJsSpace r).length →
      (AzureSpeech.calculateSimpleAccuracy t r).isSome = true) ∧
    AzureSpeech.calculateSimpleAccuracy "你好" "你好" = some 100 ∧
    AzureSpeech.calculateSimpleAccuracy "你" "你好世界" = some 25 := by
  refine ⟨?_, ?_, ?_, ?_⟩
  · intro t r q h
    simp only [AzureSpeech.calculateSimpleAccuracy] at h
    split at h
    · exact absurd h (by simp)
    · next hcond =>
      simp only [Option.some.injEq] at h
      subst h
      have hM : 0 < max (stripJsSpace t).length (stripJsSpace r).length :=
        Nat.pos_of_ne_zero hcond
      have hm : AzureSpeech.countMatches (stripJsSpace t) (stripJsSpace r) ≤
          max (stripJsSpace t).length (stripJsSpace r).length :=
        le_trans (countMatches_le_min _ _) (le_trans (min_le_left _ _) (le_max_left _ _))
      have hMq : (0:ℚ) < ((max (stripJsSpace t).length (stripJsSpace r).length : ℕ) : ℚ) := by
        exact_mod_cast hM
      have hx0 : 0 ≤ ((AzureSpeech.countMatches (stripJsSpace t) (stripJsSpace r) : ℕ) : ℚ) /
          ((max (stripJsSpace t).length (stripJsSpace r).length : ℕ) : ℚ) * 100 := by positivity
      have hdiv : ((AzureSpeech.countMatches (stripJsSpace t) (stripJsSpace r) : ℕ) : ℚ) /
          ((max (stripJsSpace t).length (stripJsSpace r).length : ℕ) : ℚ) ≤ 1 := by
        rw [div_le_one hMq]
        exact_mod_cast hm
      have hx100 : ((AzureSpeech.countMatches (stripJsSpace t) (stripJsSpace r) : ℕ) : ℚ) /
          ((max (stripJsSpace t).length (stripJsSpace r).length : ℕ) : ℚ) * 100 ≤ 100 := by
        nlinarith
      exact jsRound_bounds hx0 hx100 ⟨0, by norm_num⟩ ⟨100, by norm_num⟩
  · intro t r h
    unfold AzureSpeech.calculateSimpleAccuracy
    rw [if_neg (Nat.pos_iff_ne_zero.mp h)]
    rfl
  · with_unfolding_all decide
  · with_unfolding_all decide

/-- Witness for C8 (amended): the theorem applied at the concrete probe
input, its hypothesis discharged by evaluation. -/
theorem calculateSimpleAccuracy_spec_witness :
    0 ≤ (25 : ℚ) ∧ (25 : ℚ) ≤ 100 :=
  calculateSimpleAccuracy_spec.1 "你" "你好世界" 25 calculateSimpleAccuracy_spec.2.2.2

/-- C4: the main evaluation path derives `confidenceScore` as
`max(0, 100 - pauseCount*10)`, the synthetic fallback generator as
`max(0, 100 - pauseCount*8)`, and for every positive integer pause count
within either formula's non-clamped range the two formulas disagree. -/
theorem confidenceScore_two_formulas :
    (∀ r res, App.handleEvaluate r = .ok res →
      res.confidenceScore = max 0 (100 - res.pauseCount * 10)) ∧
    (∀ text rs, (SampleData.generateCompleteFallbackEvaluation text rs).confidenceScore =
      max 0 (100 - (SampleData.generateCompleteFallbackEvaluation text rs).pauseCount * 8)) ∧
    (∀ n : ℕ, 0 < n → 10 * n ≤ 100 ∨ 8 * n ≤ 100 →
      max (0:ℚ) (100 - (n:ℚ) * 10) ≠ max (0:ℚ) (100 - (n:ℚ) * 8)) := by
  refine ⟨?_, ?_, ?_⟩
  · intro r res h
    unfold App.handleEvaluate at h
    cases hc : AzureSpeech.convertAzureResultToInternalFormat r with
    | error e => rw [hc] at h; simp at h
    | ok conv =>
      rw [hc] at h
      simp only [Except.ok.injEq] at h
      subst h
      rfl
  · intro text rs
    rfl
  · intro n hn h
    have h12 : n ≤ 12 := by omega
    interval_cases n <;> with_unfolding_all decide

set_option maxRecDepth 2000 in
/-- Witness for C4: the theorem applied to a concrete assessment-service
evaluation and to the pause count 3. -/
theorem confidenceScore_two_formulas_witness :
    (let res : App.EvaluationResult :=
      { accuracyScore := some 90
        fluencyScore := some 80
        completenessScore := some 95
        prosodyScore := some 0
        overallScore := some 85
        words := []
        pauseCount := 0
        confidenceScore := 100
        strongPoints := ["정확한 발음", "좋은 유창성", "완전한 문장 구사"]
        improvementAreas := ["성조와 억양"]
        problematicWords := []
        scoreAdvice := "매우 좋은 발음이에요. 성조와 억양을 조금 더 다듬으면 완벽해질 것 같아요." }
     res.confidenceScore = max 0 (100 - res.pauseCount * 10)) ∧
    max (0:ℚ) (100 - ((3:ℕ):ℚ) * 10) ≠ max (0:ℚ) (100 - ((3:ℕ):ℚ) * 8) := by
  constructor
  · exact confidenceScore_two_formulas.1 (AzureSpeech.assessmentDataOf ⟨⟨85, 90, 80, 95⟩, []⟩) _
      (by with_unfolding_all rfl)
  · exact confidenceScore_two_formulas.2.2 3 (by norm_num) (by norm_num)

/-- pauseCountAux counts exactly the adjacent pairs whose computed gap
strictly exceeds 300. -/
lemma pauseCountAux_eq_countP : ∀ ws : List ConvertedWord,
    DetailedAnalysis.pauseCountAux ws =
      (ws.zip ws.tail).countP (fun p => jsGt (DetailedAnalysis.pairGap p.1 p.2) 300) := by
  intro ws
  induction ws with
  | nil => rfl
  | cons w1 rest ih =>
    cases rest with
    | nil => rfl
    | cons w2 rest2 =>
      simp only [DetailedAnalysis.pauseCountAux, List.tail_cons, List.zip_cons_cons,
        List.countP_cons, ih]
      rw [Nat.add_comm]

/-- the inner azure pause counter counts exactly the adjacent pairs
satisfying its per-pair condition. -/
lemma azurePauseCount_eq_countP : ∀ ws : List AzureSpeech.AzureWordJson,
    AzureSpeech.calculatePauseCount ws =
      (ws.zip ws.tail).countP (fun p => AzureSpeech.azurePairCounted p.1 p.2) := by
  intro ws
  induction ws with
  | nil => rfl
  | cons w1 rest ih =>
    cases rest with
    | nil => rfl
    | cons w2 rest2 =>
      simp only [AzureSpeech.calculatePauseCount, List.tail_cons, List.zip_cons_cons,
        List.countP_cons, ih]
      rw [Nat.add_comm]

/-- C6: both pause counters use a strict 300 ms threshold.  Each counter
equals the number of adjacent pairs whose gap test fires; for a pair whose
computed millisecond gap is an actual number `g`, the test fires exactly
when `300 < g`; and on concrete two-word lists a gap of exactly 300 ms
(300000000 source time-units) is not counted while one unit more is. -/
theorem pause_threshold_strict :
    (∀ words : List ConvertedWord, DetailedAnalysis.calculatePauseCount words =
      (words.zip words.tail).countP (fun p => jsGt (DetailedAnalysis.pairGap p.1 p.2) 300)) ∧
    (∀ w1 w2 : ConvertedWord, ∀ g : ℚ, DetailedAnalysis.pairGap w1 w2 = some g →
      (jsGt (DetailedAnalysis.pairGap w1 w2) 300 = true ↔ 300 < g)) ∧
    (∀ words : List AzureSpeech.AzureWordJson, AzureSpeech.calculatePauseCount words =
      (words.zip words.tail).countP (fun p => AzureSpeech.azurePairCounted p.1 p.2)) ∧
    (∀ cur next : AzureSpeech.AzureWordJson, ∀ g : ℚ,
      jsTruthy cur.Duration = true → jsTruthy next.Offset = true →
      jsDivC (jsSub next.Offset (jsAdd cur.Offset cur.Duration)) 1000000 = some g →
      (AzureSpeech.azurePairCounted cur next = true ↔ 300 < g)) ∧
    DetailedAnalysis.calculatePauseCount
      [{ word := none, accuracyScore := none, errorType := none,
         syllables := [{ Offset := some 0, Duration := some 100000000 }] },
       { word := none, accuracyScore := none, errorType := none,
         syllables := [{ Offset := some 400000000, Duration := some 1000000 }] }] = 0 ∧
    DetailedAnalysis.calculatePauseCount
      [{ word := none, accuracyScore := none, errorType := none,
         syllables := [{ Offset := some 0, Duration := some 100000000 }] },
       { word := none, accuracyScore := none, errorType := none,
         syllables := [{ Offset := some 400000001, Duration := some 1000000 }] }] = 1 := by
  refine ⟨pauseCountAux_eq_countP, ?_, azurePauseCount_eq_countP, ?_, ?_, ?_⟩
  · intro w1 w2 g h
    rw [h]
    simp [jsGt]
  · intro cur next g hd ho h
    unfold AzureSpeech.azurePairCounted
    rw [hd, ho, h]
    simp [jsGt]
  · with_unfolding_all decide
  · with_unfolding_all decide

/-- Witness for C6: the pair-level characterization applied to a concrete
pair with a gap of exactly 300 ms. -/
theorem pause_threshold_strict_witness :
    jsGt (DetailedAnalysis.pairGap
      { word := none, accuracyScore := none, errorType := none,
        syllables := [{ Offset := some 0, Duration := some 100000000 }] }
      { word := none, accuracyScore := none, errorType := none,
        syllables := [{ Offset := some 400000000, Duration := some 1000000 }] }) 300 = true ↔
      (300 : ℚ) < 300 :=
  pause_threshold_strict.2.1
    { word := none, accuracyScore := none, errorType := none,
      syllables := [{ Offset := some 0, Duration := some 100000000 }] }
    { word := none, accuracyScore := none, errorType := none,
      syllables := [{ Offset := some 400000000, Duration := some 1000000 }] }
    300 (by with_unfolding_all decide)

/-- a pair can only produce an actual (non-`NaN`) gap when both words carry
the timing fields the computation reads. -/
lemma pairGap_some_implies_timing {w1 w2 : ConvertedWord} {g : ℚ}
    (h : DetailedAnalysis.pairGap w1 w2 = some g) :
    DetailedAnalysis.wordHasTiming w1 = true ∧ DetailedAnalysis.wordHasTiming w2 = true := by
  unfold DetailedAnalysis.pairGap at h
  unfold DetailedAnalysis.wordHasTiming
  split at h
  · next hlen =>
    simp only [Bool.and_eq_true, decide_eq_true_eq] at hlen
    obtain ⟨hl1, hl2⟩ := hlen
    split at h
    · next lastSyl firstSyl hlast hfirst =>
      cases hOff1 : lastSyl.Offset with
      | none => rw [hOff1] at h; simp [jsAdd, jsSub, jsDivC] at h
      | some o1 =>
        cases hDur1 : lastSyl.Duration with
        | none => rw [hOff1, hDur1] at h; simp [jsAdd, jsSub, jsDivC] at h
        | some d1 =>
          cases hOff2 : firstSyl.Offset with
          | none => rw [hOff1, hDur1, hOff2] at h; simp [jsAdd, jsSub, jsDivC] at h
          | some o2 =>
            constructor
            · simp [hl1, hlast, hOff1, hDur1]
            · simp [hl2, hfirst, hOff2]
    · exact absurd h (by simp)
  · exact absurd h (by simp)

/-- with fewer than two timing-carrying words no adjacent pair contributes,
so all three pause aggregates collapse. -/
lemma pause_aggregates_trivial : ∀ ws : List ConvertedWord,
    (ws.countP DetailedAnalysis.wordHasTiming) < 2 →
    DetailedAnalysis.pauseCountAux ws = 0 ∧ DetailedAnalysis.pausesListAux ws = [] ∧
      ∀ acc : ℚ, DetailedAnalysis.longestAux ws acc = acc := by
  intro ws
  induction ws with
  | nil => intro _; exact ⟨rfl, rfl, fun _ => rfl⟩
  | cons w1 rest ih =>
    cases rest with
    | nil => intro _; exact ⟨rfl, rfl, fun _ => rfl⟩
    | cons w2 rest2 =>
      intro h
      have hgap : DetailedAnalysis.pairGap w1 w2 = none := by
        cases hg : DetailedAnalysis.pairGap w1 w2 with
        | none => rfl
        | some g =>
          obtain ⟨h1, h2⟩ := pairGap_some_implies_timing hg
          exfalso
          simp only [List.countP_cons, h1, h2, if_pos] at h
          omega
      have hrest : ((w2 :: rest2).countP DetailedAnalysis.wordHasTiming) < 2 := by
        have hmono : (w1 :: w2 :: rest2).countP DetailedAnalysis.wordHasTiming =
            (w2 :: rest2).countP DetailedAnalysis.wordHasTiming +
              (if DetailedAnalysis.wordHasTiming w1 then 1 else 0) :=
          List.countP_cons _ _ _
        omega
      obtain ⟨hc, hp, hl⟩ := ih hrest
      refine ⟨?_, ?_, ?_⟩
      · simp [DetailedAnalysis.pauseCountAux, hgap, jsGt, hc]
      · simp [DetailedAnalysis.pausesListAux, hgap, hp]
      · intro acc
        simp [DetailedAnalysis.longestAux, hgap, hl]

/-- C7: with fewer than two words carrying syllable timing (in particular
with no timing data at all), `calculatePauseCount`,
`calculateAveragePauseDuration` (whose empty pause set takes the 0 branch,
avoiding a division by zero) and `calculateLongestPause` all return 0. -/
theorem pause_outputs_zero_without_two_timed_words :
    ∀ words : List ConvertedWord, (words.countP DetailedAnalysis.wordHasTiming) < 2 →
      DetailedAnalysis.calculatePauseCount words = 0 ∧
      DetailedAnalysis.calculateAveragePauseDuration words = 0 ∧
      DetailedAnalysis.calculateLongestPause words = 0 := by
  intro ws h
  obtain ⟨hc, hp, hl⟩ := pause_aggregates_trivial ws h
  refine ⟨hc, ?_, hl 0⟩
  unfold DetailedAnalysis.calculateAveragePauseDuration
  simp [hp]

/-- Witness for C7: the theorem applied to a two-word list without any
timing data. -/
theorem pause_outputs_zero_without_two_timed_words_witness :
    DetailedAnalysis.calculatePauseCount
      [{ word := some "你", accuracyScore := some 90, errorType := some "None", syllables := [] },
       { word := some "好", accuracyScore := some 80, errorType := some "None", syllables := [] }]
      = 0 ∧
    DetailedAnalysis.calculateAveragePauseDuration
      [{ word := some "你", accuracyScore := some 90, errorType := some "None", syllables := [] },
       { word := some "好", accuracyScore := some 80, errorType := some "None", syllables := [] }]
      = 0 ∧
    DetailedAnalysis.calculateLongestPause
      [{ word := some "你", accuracyScore := some 90, errorType := some "None", syllables := [] },
       { word := some "好", accuracyScore := some 80, errorType := some "None", syllables := [] }]
      = 0 :=
  pause_outputs_zero_without_two_timed_words
    [{ word := some "你", accuracyScore := some 90, errorType := some "None", syllables := [] },
     { word := some "好", accuracyScore := some 80, errorType := some "None", syllables := [] }]
    (by with_unfolding_all decide)

/-- converting a list of assessment-service words succeeds and maps the list
element-wise, preserving order. -/
lemma convertWords_azure : ∀ ws : List AzureSpeech.AzureWordJson,
    AzureSpeech.convertWords (ws.map AzureSpeech.azureWordToInputWord) =
      .ok (ws.map convertedOfAzureWord) := by
  intro ws
  induction ws with
  | nil => rfl
  | cons w rest ih =>
    simp [AzureSpeech.convertWords, AzureSpeech.convertWord, AzureSpeech.azureWordToInputWord,
      ih, convertedOfAzureWord]

/-- C1 (code bug): the normalizer converts the assessment-service shape 1:1
and in order, and passes the on-device shape's empty word list through; but
on the synthetic-fallback shape it reads
`word.PronunciationAssessment.AccuracyScore` unconditionally, and synthetic
words carry only the lowercase field names, so any synthetic result with a
non-empty word list makes the conversion — and with it the whole
`handleEvaluate` — throw instead of producing a result (the hardcoded-
feedback handling after the conversion in App.tsx is unreachable). -/
theorem normalizer_on_three_shapes :
    (∀ d : AzureSpeech.DetailResult,
      AzureSpeech.convertAzureResultToInternalFormat (AzureSpeech.assessmentDataOf d) =
        .ok { overallScore := some d.PronunciationAssessment.PronScore
              accuracyScore := some d.PronunciationAssessment.AccuracyScore
              fluencyScore := some d.PronunciationAssessment.FluencyScore
              completenessScore := some d.PronunciationAssessment.CompletenessScore
              prosodyScore := some 0
              confidenceScore := some 0
              pauseCount :=
                jsOrDefault (some ((AzureSpeech.calculatePauseCount d.Words : ℕ) : ℚ)) 0
              words := d.Words.map convertedOfAzureWord
              syllables := []
              phonemes := [] }) ∧
    (∀ transcript referenceText : String,
      (AzureSpeech.convertAzureResultToInternalFormat
        (AzureSpeech.browserRecognitionResult transcript referenceText)).toOption.map
          ConvertedResult.words = some []) ∧
    App.handleEvaluate (App.fallbackAsAzureResult "你" []) =
      .error "TypeError: Cannot read properties of undefined (reading AccuracyScore)" := by
  refine ⟨?_, ?_, ?_⟩
  · intro d
    simp [AzureSpeech.convertAzureResultToInternalFormat, AzureSpeech.assessmentDataOf,
      convertWords_azure]
  · intro transcript referenceText
    rfl
  · with_unfolding_all decide

/-- C2 counterexample: two assessment-service responses with identical
AccuracyScore/FluencyScore/CompletenessScore (and prosody fixed at 0) but
different `PronScore` produce final evaluations with identical four
sub-scores yet different `overallScore` (80 vs 90): on the service path
`overallScore` is taken from `PronScore`, not computed from the
sub-scores. -/
theorem overallScore_not_determined_by_subscores :
    ((App.handleEvaluate (AzureSpeech.assessmentDataOf ⟨⟨80, 90, 85, 95⟩, []⟩)).toOption.map
        App.EvaluationResult.accuracyScore =
      (App.handleEvaluate (AzureSpeech.assessmentDataOf ⟨⟨90, 90, 85, 95⟩, []⟩)).toOption.map
        App.EvaluationResult.accuracyScore) ∧
    ((App.handleEvaluate (AzureSpeech.assessmentDataOf ⟨⟨80, 90, 85, 95⟩, []⟩)).toOption.map
        App.EvaluationResult.fluencyScore =
      (App.handleEvaluate (AzureSpeech.assessmentDataOf ⟨⟨90, 90, 85, 95⟩, []⟩)).toOption.map
        App.EvaluationResult.fluencyScore) ∧
    ((App.handleEvaluate (AzureSpeech.assessmentDataOf ⟨⟨80, 90, 85, 95⟩, []⟩)).toOption.map
        App.EvaluationResult.completenessScore =
      (App.handleEvaluate (AzureSpeech.assessmentDataOf ⟨⟨90, 90, 85, 95⟩, []⟩)).toOption.map
        App.EvaluationResult.completenessScore) ∧
    ((App.handleEvaluate (AzureSpeech.assessmentDataOf ⟨⟨80, 90, 85, 95⟩, []⟩)).toOption.map
        App.EvaluationResult.prosodyScore =
      (App.handleEvaluate (AzureSpeech.assessmentDataOf ⟨⟨90, 90, 85, 95⟩, []⟩)).toOption.map
        App.EvaluationResult.prosodyScore) ∧
    ((App.handleEvaluate (AzureSpeech.assessmentDataOf ⟨⟨80, 90, 85, 95⟩, []⟩)).toOption.map
        App.EvaluationResult.overallScore = some (some 80)) ∧
    ((App.handleEvaluate (AzureSpeech.assessmentDataOf ⟨⟨90, 90, 85, 95⟩, []⟩)).toOption.map
        App.EvaluationResult.overallScore = some (some 90)) ∧
    some (some (80 : ℚ)) ≠ some (some (90 : ℚ)) := by
  refine ⟨by with_unfolding_all rfl, by with_unfolding_all rfl, by with_unfolding_all rfl,
    by with_unfolding_all rfl, by with_unfolding_all rfl, by with_unfolding_all rfl,
    by with_unfolding_all decide⟩

/-- the synthetic generator's overall score is `calculateOverallScore` of
its own four sub-scores. -/
lemma gen_overallScore_eq (text : String) (rs : List ℚ) :
    (SampleData.generateCompleteFallbackEvaluation text rs).overallScore =
      SampleData.calculateOverallScore
        (SampleData.generateCompleteFallbackEvaluation text rs).accuracyScore
        (SampleData.generateCompleteFallbackEvaluation text rs).fluencyScore
        (SampleData.generateCompleteFallbackEvaluation text rs).completenessScore
        (SampleData.generateCompleteFallbackEvaluation text rs).prosodyScore := rfl

/-- the browser-recognition result's overall score is the rounded mean of
its three computed scores (prosody does not enter). -/
lemma browser_overallScore_eq (transcript referenceText : String) :
    (AzureSpeech.browserRecognitionResult transcript referenceText).overallScore =
      jsRoundN (jsDivC
        (jsAdd (jsAdd (AzureSpeech.calculateSimpleAccuracy transcript referenceText)
                      (some (AzureSpeech.calculateSimpleFluency transcript referenceText)))
               (AzureSpeech.calculateSimpleCompleteness transcript referenceText)) 3) := rfl

/-- C2 (amended): on the on-device path `overallScore` is a deterministic
function of the computed sub-scores (the rounded mean of accuracy, fluency
and completeness, prosody being fixed 0), on the synthetic path it is
`calculateOverallScore` of the four generated sub-scores — so equal
sub-scores give equal overall scores on both fallback paths — while on the
assessment-service path `overallScore` is the service's own `PronScore`,
set independently of the four sub-scores. -/
theorem overallScore_function_of_subscores_on_fallback_paths :
    (∀ t r t2 r2 : String,
      AzureSpeech.calculateSimpleAccuracy t r = AzureSpeech.calculateSimpleAccuracy t2 r2 →
      AzureSpeech.calculateSimpleFluency t r = AzureSpeech.calculateSimpleFluency t2 r2 →
      AzureSpeech.calculateSimpleCompleteness t r =
        AzureSpeech.calculateSimpleCompleteness t2 r2 →
      (AzureSpeech.browserRecognitionResult t r).overallScore =
        (AzureSpeech.browserRecognitionResult t2 r2).overallScore) ∧
    (∀ (text : String) (rs : List ℚ) (text2 : String) (rs2 : List ℚ),
      (SampleData.generateCompleteFallbackEvaluation text rs).accuracyScore =
        (SampleData.generateCompleteFallbackEvaluation text2 rs2).accuracyScore →
      (SampleData.generateCompleteFallbackEvaluation text rs).fluencyScore =
        (SampleData.generateCompleteFallbackEvaluation text2 rs2).fluencyScore →
      (SampleData.generateCompleteFallbackEvaluation text rs).completenessScore =
        (SampleData.generateCompleteFallbackEvaluation text2 rs2).completenessScore →
      (SampleData.generateCompleteFallbackEvaluation text rs).prosodyScore =
        (SampleData.generateCompleteFallbackEvaluation text2 rs2).prosodyScore →
      (SampleData.generateCompleteFallbackEvaluation text rs).overallScore =
        (SampleData.generateCompleteFallbackEvaluation text2 rs2).overallScore) ∧
    (∀ d : AzureSpeech.DetailResult,
      (AzureSpeech.assessmentDataOf d).overallScore =
        some d.PronunciationAssessment.PronScore) := by
  refine ⟨?_, ?_, fun d => rfl⟩
  · intro t r t2 r2 h1 h2 h3
    rw [browser_overallScore_eq, browser_overallScore_eq, h1, h2, h3]
  · intro text rs text2 rs2 h1 h2 h3 h4
    rw [gen_overallScore_eq, gen_overallScore_eq, h1, h2, h3, h4]

/-- Witness for C2 (amended): the on-device conjunct applied to two concrete
transcript/reference pairs with equal heuristic scores. -/
theorem overallScore_function_witness :
    (AzureSpeech.browserRecognitionResult "你" "好").overallScore =
      (AzureSpeech.browserRecognitionResult "好" "你").overallScore :=
  overallScore_function_of_subscores_on_fallback_paths.1 "你" "好" "好" "你"
    (by with_unfolding_all decide) (by with_unfolding_all decide)
    (by with_unfolding_all decide)

/-- none of the three upstream constructions carries the hardcoded-feedback
fields, so `handleEvaluate` always recomputes the analysis. -/
lemma fromUpstream_strongPoints_none {r : AzureResultInput} (h : App.fromUpstream r) :
    r.strongPoints = none := by
  rcases h with ⟨d, rfl⟩ | ⟨t, ref, rfl⟩ | ⟨text, rs, rfl⟩ <;> rfl

/-- C3: in every final evaluation the program can produce,
`problematicWords` is exactly the words with accuracy below 70: the
`handleEvaluate` result filters its own (converted) word list, and the
synthetic generator's own record filters its own generated word list. -/
theorem problematicWords_matches_filter :
    (∀ (r : AzureResultInput) (res : App.EvaluationResult), App.fromUpstream r →
      App.handleEvaluate r = .ok res →
      res.problematicWords =
        (res.words.filter (fun w => jsLt w.accuracyScore 70)).map (fun w => w.word)) ∧
    (∀ (text : String) (rs : List ℚ),
      (SampleData.generateCompleteFallbackEvaluation text rs).problematicWords =
        ((SampleData.generateCompleteFallbackEvaluation text rs).words.filter
          (fun w => decide (w.accuracyScore < 70))).map (fun w => w.word)) := by
  constructor
  · intro r res hup hok
    have hsp : r.strongPoints = none := fromUpstream_strongPoints_none hup
    unfold App.handleEvaluate at hok
    cases hc : AzureSpeech.convertAzureResultToInternalFormat r with
    | error e => rw [hc] at hok; simp at hok
    | ok conv =>
      rw [hc] at hok
      simp only [Except.ok.injEq] at hok
      subst hok
      simp [hsp]
  · intro text rs
    rfl

set_option maxRecDepth 2000 in
/-- Witness for C3: the theorem applied to a concrete assessment-service
evaluation. -/
theorem problematicWords_matches_filter_witness :
    App.fromUpstream (AzureSpeech.assessmentDataOf ⟨⟨85, 90, 80, 95⟩, []⟩) ∧
    (let res : App.EvaluationResult :=
      { accuracyScore := some 90
        fluencyScore := some 80
        completenessScore := some 95
        prosodyScore := some 0
        overallScore := some 85
        words := []
        pauseCount := 0
        confidenceScore := 100
        strongPoints := ["정확한 발음", "좋은 유창성", "완전한 문장 구사"]
        improvementAreas := ["성조와 억양"]
        problematicWords := []
        scoreAdvice := "매우 좋은 발음이에요. 성조와 억양을 조금 더 다듬으면 완벽해질 것 같아요." }
     res.problematicWords =
       (res.words.filter (fun w => jsLt w.accuracyScore 70)).map (fun w => w.word)) := by
  constructor
  · exact Or.inl ⟨⟨⟨85, 90, 80, 95⟩, []⟩, rfl⟩
  · exact problematicWords_matches_filter.1 (AzureSpeech.assessmentDataOf ⟨⟨85, 90, 80, 95⟩, []⟩)
      _ (Or.inl ⟨⟨⟨85, 90, 80, 95⟩, []⟩, rfl⟩) (by with_unfolding_all rfl)

/-- C9 counterexample: with the random stream (1/2, 0, …) the synthetic
word analysis of '你' with base accuracy 70 produces a unit with score 70
(≤ 80) whose error type is 'None': the random pick indexes the full
five-element `errorTypes` array, whose element 0 is 'None', so a unit at or
below the threshold can still receive 'None'. -/
theorem synthetic_low_score_receives_None :
    ((SampleData.generateWordAnalysis "你" 70 [1/2, 0]).1.map
      (fun w => (w.accuracyScore, w.errorType))) = [((70 : ℚ), "None")] ∧
    ((70 : ℚ) ≤ 80) := by
  exact ⟨by with_unfolding_all decide, by norm_num⟩

/-- the tail a `Math.random` draw leaves is a suffix of the stream. -/
lemma nextRand_suffix (rs : List ℚ) : (nextRand rs).2 <:+ rs := by
  cases rs with
  | nil => exact List.suffix_rfl
  | cons r rest => exact List.suffix_cons r rest

/-- a suffix of a valid random stream is valid. -/
lemma validRandom_mono {rs l : List ℚ} (h : validRandom rs) (hs : l <:+ rs) :
    validRandom l :=
  fun x hx => h x (hs.subset hx)

/-- the next draw from a valid stream (or the 0 default) lies in [0,1). -/
lemma validRandom_head {rs : List ℚ} (h : validRandom rs) :
    0 ≤ (nextRand rs).1 ∧ (nextRand rs).1 < 1 := by
  cases rs with
  | nil => exact ⟨le_refl 0, by norm_num [nextRand]⟩
  | cons r rest => exact h r (List.mem_cons_self r rest)

/-- composing with one more draw preserves being a suffix. -/
lemma suffix_nextRand {l rs : List ℚ} (h : l <:+ rs) : (nextRand l).2 <:+ rs :=
  (nextRand_suffix l).trans h

/-- the syllable generator consumes a prefix of the stream. -/
lemma genSyllablesAux_suffix (wordScore : ℚ) : ∀ (cs : List Char) (rs : List ℚ),
    (SampleData.genSyllablesAux wordScore cs rs).2 <:+ rs := by
  intro cs
  induction cs with
  | nil => intro rs; exact List.suffix_rfl
  | cons c cs ih => intro rs; exact (ih (nextRand rs).2).trans (nextRand_suffix rs)

/-- the per-character phoneme generator consumes a prefix of the stream. -/
lemma phonemesForChar_suffix (baseScore : ℚ) : ∀ (ps : List String) (rs : List ℚ),
    (SampleData.phonemesForChar baseScore ps rs).2 <:+ rs := by
  intro ps
  induction ps with
  | nil => intro rs; exact List.suffix_rfl
  | cons p ps ih => intro rs; exact (ih (nextRand rs).2).trans (nextRand_suffix rs)

/-- the phoneme generator consumes a prefix of the stream. -/
lemma generatePhonemesAux_suffix (baseScore : ℚ) : ∀ (cs : List Char) (rs : List ℚ),
    (SampleData.generatePhonemesAux baseScore cs rs).2 <:+ rs := by
  intro cs
  induction cs with
  | nil => intro rs; exact List.suffix_rfl
  | cons c cs ih =>
    intro rs
    exact (ih _).trans (phonemesForChar_suffix baseScore _ rs)

/-- the prosody-feedback generator consumes a prefix of the stream. -/
lemma generateProsodyFeedback_suffix (wordScore : ℚ) (rs : List ℚ) :
    (SampleData.generateProsodyFeedback wordScore rs).2 <:+ rs := by
  unfold SampleData.generateProsodyFeedback
  dsimp only
  repeat' split
  all_goals
    repeat first
      | exact List.suffix_rfl
      | apply suffix_nextRand

/-- the full phoneme generator consumes a prefix of the stream. -/
lemma generatePhonemes_suffix (word : String) (baseScore : ℚ) (rs : List ℚ) :
    (SampleData.generatePhonemes word baseScore rs).2 <:+ rs :=
  generatePhonemesAux_suffix baseScore word.data rs

/-- the per-word generator consumes a prefix of the stream. -/
lemma generateOneWord_suffix (baseAccuracy : ℚ) (word : String) (rs : List ℚ) :
    (SampleData.generateOneWord baseAccuracy word rs).2 <:+ rs := by
  unfold SampleData.generateOneWord
  dsimp only
  split
  · exact (generateProsodyFeedback_suffix _ _).trans
      ((generatePhonemes_suffix _ _ _).trans
        ((genSyllablesAux_suffix _ _ _).trans (nextRand_suffix rs)))
  · exact (generateProsodyFeedback_suffix _ _).trans
      ((generatePhonemes_suffix _ _ _).trans
        ((genSyllablesAux_suffix _ _ _).trans (suffix_nextRand (nextRand_suffix rs))))

/-- the per-word error type: 'None' is forced above the threshold, and the
random pick below it lands inside the five-element `errorTypes` array for
any draw in [0,1). -/
lemma generateOneWord_errorType (baseAccuracy : ℚ) (word : String) (rs : List ℚ)
    (h : validRandom rs) :
    (80 < (SampleData.generateOneWord baseAccuracy word rs).1.accuracyScore →
      (SampleData.generateOneWord baseAccuracy word rs).1.errorType = "None") ∧
    (SampleData.generateOneWord baseAccuracy word rs).1.errorType ∈ SampleData.errorTypes := by
  unfold SampleData.generateOneWord
  dsimp only
  split
  · exact ⟨fun _ => rfl, by simp [SampleData.errorTypes]⟩
  · next h80 =>
    constructor
    · intro hacc
      exfalso
      have hle : 40 ⊔ 100 ⊓ (baseAccuracy + ((nextRand rs).1 - 1/2) * 30) ≤ 80 :=
        le_of_not_lt h80
      have h1 : ((⌊40 ⊔ 100 ⊓ (baseAccuracy + ((nextRand rs).1 - 1/2) * 30) + 1/2⌋ : ℤ) : ℚ) ≤
          40 ⊔ 100 ⊓ (baseAccuracy + ((nextRand rs).1 - 1/2) * 30) + 1/2 := Int.floor_le _
      have h2 : ((⌊40 ⊔ 100 ⊓ (baseAccuracy + ((nextRand rs).1 - 1/2) * 30) + 1/2⌋ : ℤ) : ℚ) <
          81 := by linarith
      have h3 : ⌊40 ⊔ 100 ⊓ (baseAccuracy + ((nextRand rs).1 - 1/2) * 30) + 1/2⌋ < 81 := by
        exact_mod_cast h2
      have h4 : ((⌊40 ⊔ 100 ⊓ (baseAccuracy + ((nextRand rs).1 - 1/2) * 30) + 1/2⌋ : ℤ) : ℚ) ≤
          80 := by exact_mod_cast Int.lt_add_one_iff.mp h3
      have h5 : (80 : ℚ) <
          ((⌊40 ⊔ 100 ⊓ (baseAccuracy + ((nextRand rs).1 - 1/2) * 30) + 1/2⌋ : ℤ) : ℚ) := hacc
      linarith
    · have hv1 : validRandom (nextRand rs).2 := validRandom_mono h (nextRand_suffix rs)
      obtain ⟨hr0, hr1⟩ := validRandom_head hv1
      have hfl0 : 0 ≤ ⌊(nextRand (nextRand rs).2).1 * (SampleData.errorTypes.length : ℚ)⌋ :=
        Int.floor_nonneg.mpr (by positivity)
      have hfl5 : ⌊(nextRand (nextRand rs).2).1 * (SampleData.errorTypes.length : ℚ)⌋ <
          SampleData.errorTypes.length := by
        apply Int.floor_lt.mpr
        have : (SampleData.errorTypes.length : ℚ) = 5 := by simp [SampleData.errorTypes]
        rw [this]
        push_cast
        nlinarith
      have hidx : (⌊(nextRand (nextRand rs).2).1 *
          (SampleData.errorTypes.length : ℚ)⌋).toNat < SampleData.errorTypes.length := by
        omega
      rw [List.getD_eq_getElem _ _ hidx]
      exact List.getElem_mem _

/-- every word analysis in the generated list is produced by the per-word
generator on some suffix of the stream. -/
lemma mem_generateWordAnalysisAux (baseAccuracy : ℚ) :
    ∀ (ws : List String) (rs : List ℚ) (w : SampleData.GenWord),
      w ∈ (SampleData.generateWordAnalysisAux baseAccuracy ws rs).1 →
      ∃ word rs', rs' <:+ rs ∧ w = (SampleData.generateOneWord baseAccuracy word rs').1 := by
  intro ws
  induction ws with
  | nil =>
    intro rs w h
    exact absurd h (by simp [SampleData.generateWordAnalysisAux])
  | cons word rest ih =>
    intro rs w h
    simp only [SampleData.generateWordAnalysisAux, List.mem_cons] at h
    rcases h with h | h
    · exact ⟨word, rs, List.suffix_rfl, h⟩
    · obtain ⟨word', rs', hs, heq⟩ := ih _ w h
      exact ⟨word', rs', hs.trans (generateOneWord_suffix baseAccuracy word rs), heq⟩

/-- C9 (amended): in the synthetic generator, every generated per-unit
analysis with score strictly above 80 gets error type 'None', and every
unit's error type is drawn from the five-element `errorTypes` array —
which includes 'None', so (contrary to the original claim) a unit with
score ≤ 80 can also receive 'None' (probability 1/5), as the
counterexample shows. -/
theorem synthetic_errorType_thresholding :
    ∀ (text : String) (baseAccuracy : ℚ) (rs : List ℚ), validRandom rs →
      ∀ w ∈ (SampleData.generateWordAnalysis text baseAccuracy rs).1,
        (80 < w.accuracyScore → w.errorType = "None") ∧
        w.errorType ∈ SampleData.errorTypes := by
  intro text b rs h w hw
  obtain ⟨word, rs', hs, heq⟩ :=
    mem_generateWordAnalysisAux b (SampleData.splitWords text) rs w hw
  subst heq
  exact generateOneWord_errorType b word rs' (validRandom_mono h hs)

/-- Witness for C9 (amended): the theorem applied to the first unit of a
concrete generated analysis. -/
theorem synthetic_errorType_thresholding_witness :
    Option.elim ((SampleData.generateWordAnalysis "你" 70 [1/2, 0]).1.head?) True
      (fun w => (80 < w.accuracyScore → w.errorType = "None") ∧
        w.errorType ∈ SampleData.errorTypes) := by
  cases hh : (SampleData.generateWordAnalysis "你" 70 [1/2, 0]).1.head? with
  | none => exact trivial
  | some w =>
    simp only [Option.elim]
    exact synthetic_errorType_thresholding "你" 70 [1/2, 0]
      (by intro x hx; fin_cases hx <;> norm_num) w (List.mem_of_mem_head? hh)
